import Mathlib

/-!
Verification development for the Boilermaker 146 weekly pay-deduction engine.

The repository holds two near-duplicate pure-arithmetic engines:
  * `src/calculator.js`       — embedded below in namespace `Calculator`
  * `src/unnamed/part_000`    — embedded below in namespace `Legacy`

JavaScript numbers are modelled as exact rationals (`ℚ`); the `Infinity`
sentinel of the last tax bracket is modelled as `Option ℚ` with `none`
standing for the unbounded limit; an optional / omitted argument is
modelled as `Option _` with `none` standing for `undefined`.
-/

/-- One tax bracket `{ limit, rate }`; `limit = none` encodes the JS
`Infinity` sentinel used for the last bracket. -/
structure TaxBracket where
  limit : Option ℚ
  rate : ℚ

/-- Result record of `calculateCppEiForWeek`: `{ cpp, cpp2, ei }`. -/
structure ContributionResult where
  cpp : ℚ
  cpp2 : ℚ
  ei : ℚ

/-- Result record of `calculateIncomeTaxForWeek`:
`{ federalWeekly, abWeekly }`. -/
structure TaxResult where
  federalWeekly : ℚ
  abWeekly : ℚ

/-- The breakdown record returned by `calculateDeductionsForWeek`. -/
structure Breakdown where
  cpp : ℚ
  cpp2 : ℚ
  ei : ℚ
  federalTax : ℚ
  albertaTax : ℚ
  unionDues : ℚ
  totalDeductions : ℚ
  netTaxableOnly : ℚ
  netPayTotal : ℚ

/-- The options record of the entry point of `src/calculator.js`:
`{ unionDuesRate, taxMode }`, each field optional (`none` = absent). -/
structure DeductionOptions where
  unionDuesRate : Option ℚ
  taxMode : Option String

namespace Calculator

-- CPP (Tier 1) 2025
def CPP_RATE : ℚ := 0.0595
def CPP_YMPE : ℚ := 71300
def CPP_BASIC_EXEMPTION : ℚ := 3500
def CPP_MAX_CONTRIB : ℚ := 4034.10

-- CPP2 (Tier 2) 2025
def CPP2_RATE : ℚ := 0.04
def CPP2_YAMPE : ℚ := 81200
def CPP2_MAX_CONTRIB : ℚ := 396.0

-- EI 2025
def EI_RATE : ℚ := 0.0164
def EI_MAX_INSURABLE : ℚ := 65700
def EI_MAX_CONTRIB : ℚ := 1077.48

-- Federal tax (2025 brackets)
def FED_BRACKETS_2025 : List TaxBracket :=
  [⟨some 57375, 0.15⟩, ⟨some 114750, 0.205⟩, ⟨some 177882, 0.26⟩,
   ⟨some 253414, 0.29⟩, ⟨none, 0.33⟩]

def FED_BPA : ℚ := 16129
def FED_CREDIT_RATE : ℚ := 0.145

-- Alberta tax (2025 brackets)
def AB_BRACKETS_2025 : List TaxBracket :=
  [⟨some 60000, 0.08⟩, ⟨some 151234, 0.10⟩, ⟨some 181481, 0.12⟩,
   ⟨some 241974, 0.13⟩, ⟨some 362961, 0.14⟩, ⟨none, 0.15⟩]

def AB_BPA : ℚ := 22323
def AB_CREDIT_RATE : ℚ := 0.08

-- Union dues
def DEFAULT_UNION_DUES_RATE : ℚ := 0.0375

/-- Loop body of `applyProgressiveTax`, recursing over the bracket list
with the mutable loop state `(remaining, lastLimit, tax)` made explicit.
For an unbounded bracket (`limit = Infinity`) the taxable slice is
`min(remaining, Infinity - lastLimit) = remaining`, so `remaining` drops
to `0` and every later iteration exits at the `remaining <= 0` check;
the `lastLimit = Infinity` assignment of the source is therefore dead
state and `lastLimit` is simply carried unchanged. -/
def applyProgressiveTaxAux : List TaxBracket → ℚ → ℚ → ℚ → ℚ
  | [], _remaining, _lastLimit, tax => tax
  | b :: bs, remaining, lastLimit, tax =>
    if remaining ≤ 0 then tax
    else
      match b.limit with
      | none =>
          applyProgressiveTaxAux bs 0 lastLimit (tax + remaining * b.rate)
      | some l =>
          let taxableAtThisRate := min remaining (l - lastLimit)
          if 0 < taxableAtThisRate then
            applyProgressiveTaxAux bs (remaining - taxableAtThisRate) l
              (tax + taxableAtThisRate * b.rate)
          else
            applyProgressiveTaxAux bs remaining lastLimit tax

/-- Progressive tax calculator for annual income
(source: `applyProgressiveTax`). -/
def applyProgressiveTax (annualIncome : ℚ) (brackets : List TaxBracket) : ℚ :=
  applyProgressiveTaxAux brackets annualIncome 0 0

/-- Safe clamp helper (source: `clamp`,
`Math.max(minVal, Math.min(maxVal, value))`). -/
def clamp (value minVal maxVal : ℚ) : ℚ :=
  max minVal (min maxVal value)

/-- CPP + CPP2 + EI for a week (source: `calculateCppEiForWeek`).
The source tests `mode === "early-year"` and treats every other string
as the annualized branch. -/
def calculateCppEiForWeek (taxableWeekly : ℚ) (mode : String) :
    ContributionResult :=
  let weeksPerYear : ℚ := 52
  let annualEarnings := taxableWeekly * weeksPerYear
  if mode = "early-year" then
    let cppEarningsWeekly :=
      max 0 (taxableWeekly - CPP_BASIC_EXEMPTION / weeksPerYear)
    let cppWeeklyRaw := cppEarningsWeekly * CPP_RATE
    let cppWeeklyMax := CPP_MAX_CONTRIB / weeksPerYear
    let cppWeekly := if cppWeeklyRaw > cppWeeklyMax then cppWeeklyMax
      else cppWeeklyRaw
    let cpp2Weekly :=
      if annualEarnings > CPP_YMPE then
        let excessEarningsAnnual :=
          clamp (annualEarnings - CPP_YMPE) 0 (CPP2_YAMPE - CPP_YMPE)
        let cpp2Annual := excessEarningsAnnual * CPP2_RATE
        let cpp2AnnualCapped := min cpp2Annual CPP2_MAX_CONTRIB
        cpp2AnnualCapped / weeksPerYear
      else 0
    let eiEarningsWeekly :=
      min taxableWeekly (EI_MAX_INSURABLE / weeksPerYear)
    let eiWeeklyRaw := eiEarningsWeekly * EI_RATE
    let eiWeeklyMax := EI_MAX_CONTRIB / weeksPerYear
    let eiWeekly := if eiWeeklyRaw > eiWeeklyMax then eiWeeklyMax
      else eiWeeklyRaw
    ⟨cppWeekly, cpp2Weekly, eiWeekly⟩
  else
    let cppPensionableAnnual :=
      clamp (annualEarnings - CPP_BASIC_EXEMPTION) 0
        (CPP_YMPE - CPP_BASIC_EXEMPTION)
    let cppAnnualRaw := cppPensionableAnnual * CPP_RATE
    let cppAnnual := min cppAnnualRaw CPP_MAX_CONTRIB
    let cppWeekly := cppAnnual / weeksPerYear
    let cpp2Weekly :=
      if annualEarnings > CPP_YMPE then
        let cpp2BaseAnnual :=
          clamp (annualEarnings - CPP_YMPE) 0 (CPP2_YAMPE - CPP_YMPE)
        let cpp2AnnualRaw := cpp2BaseAnnual * CPP2_RATE
        let cpp2Annual := min cpp2AnnualRaw CPP2_MAX_CONTRIB
        cpp2Annual / weeksPerYear
      else 0
    let eiInsurableAnnual := min annualEarnings EI_MAX_INSURABLE
    let eiAnnualRaw := eiInsurableAnnual * EI_RATE
    let eiAnnual := min eiAnnualRaw EI_MAX_CONTRIB
    let eiWeekly := eiAnnual / weeksPerYear
    ⟨cppWeekly, cpp2Weekly, eiWeekly⟩

/-- Federal tax for the year, before credits
(source: `calculateAnnualFederalTaxGross`). -/
def calculateAnnualFederalTaxGross (annualTaxable : ℚ) : ℚ :=
  applyProgressiveTax annualTaxable FED_BRACKETS_2025

/-- Alberta tax for the year, before credits
(source: `calculateAnnualAlbertaTaxGross`). -/
def calculateAnnualAlbertaTaxGross (annualTaxable : ℚ) : ℚ :=
  applyProgressiveTax annualTaxable AB_BRACKETS_2025

/-- Weekly Federal + Alberta tax with BPA and CPP/EI credits
(source: `calculateIncomeTaxForWeek`; the `mode` parameter is accepted
but unused, as in the source). -/
def calculateIncomeTaxForWeek (taxableWeekly cppWeekly eiWeekly : ℚ)
    (_mode : String) : TaxResult :=
  let weeksPerYear : ℚ := 52
  let annualTaxable := taxableWeekly * weeksPerYear
  let cppAnnual := cppWeekly * weeksPerYear
  let eiAnnual := eiWeekly * weeksPerYear
  let federalGrossAnnual := calculateAnnualFederalTaxGross annualTaxable
  let federalCreditAnnual := FED_BPA * FED_CREDIT_RATE
    + (cppAnnual + eiAnnual) * FED_CREDIT_RATE
  let federalNetAnnual := max 0 (federalGrossAnnual - federalCreditAnnual)
  let federalWeekly := federalNetAnnual / weeksPerYear
  let abGrossAnnual := calculateAnnualAlbertaTaxGross annualTaxable
  let abCreditAnnual := AB_BPA * AB_CREDIT_RATE
    + (cppAnnual + eiAnnual) * AB_CREDIT_RATE
  let abNetAnnual := max 0 (abGrossAnnual - abCreditAnnual)
  let abWeekly := abNetAnnual / weeksPerYear
  ⟨federalWeekly, abWeekly⟩

/-- Full deduction breakdown for one week
(source: `calculateDeductionsForWeek(taxableWeekly, nonTaxableWeekly = 0,
options = {})`). `options.unionDuesRate ?? DEFAULT_UNION_DUES_RATE` is
`Option.getD`; the mode is normalized by
`options.taxMode === "annualized" ? "annualized" : "early-year"`. -/
def calculateDeductionsForWeek (taxableWeekly nonTaxableWeekly : ℚ)
    (options : DeductionOptions) : Breakdown :=
  let unionDuesRate := options.unionDuesRate.getD DEFAULT_UNION_DUES_RATE
  let taxMode := if options.taxMode = some "annualized" then "annualized"
    else "early-year"
  let c := calculateCppEiForWeek taxableWeekly taxMode
  let t := calculateIncomeTaxForWeek taxableWeekly c.cpp c.ei taxMode
  let unionDues := taxableWeekly * unionDuesRate
  let totalDeductions :=
    c.cpp + c.cpp2 + c.ei + t.federalWeekly + t.abWeekly + unionDues
  let netTaxableOnly := taxableWeekly - totalDeductions
  let netPayTotal := netTaxableOnly + nonTaxableWeekly
  ⟨c.cpp, c.cpp2, c.ei, t.federalWeekly, t.abWeekly, unionDues,
    totalDeductions, netTaxableOnly, netPayTotal⟩

end Calculator

namespace Legacy

-- CPP Tier 1
def CPP_RATE : ℚ := 0.0595
def CPP_YMPE : ℚ := 71300
def CPP_BASIC_EXEMPTION : ℚ := 3500
def CPP_MAX_CONTRIB : ℚ := 4034.10

-- CPP Tier 2
def CPP2_RATE : ℚ := 0.04
def CPP2_YAMPE : ℚ := 81200
def CPP2_MAX_CONTRIB : ℚ := 396.00

-- EI
def EI_RATE : ℚ := 0.0164
def EI_MAX_INSURABLE : ℚ := 65700
def EI_MAX_CONTRIB : ℚ := 1077.48

-- Federal tax brackets (approx 2025)
def FED_BRACKETS_2025 : List TaxBracket :=
  [⟨some 57375, 0.15⟩, ⟨some 114750, 0.205⟩, ⟨some 177882, 0.26⟩,
   ⟨some 253414, 0.29⟩, ⟨none, 0.33⟩]

def FED_BPA : ℚ := 16129
def FED_CREDIT_RATE : ℚ := 0.145

-- Alberta tax brackets (approx 2025)
def AB_BRACKETS_2025 : List TaxBracket :=
  [⟨some 60000, 0.08⟩, ⟨some 151234, 0.10⟩, ⟨some 181481, 0.12⟩,
   ⟨some 241974, 0.13⟩, ⟨some 362961, 0.14⟩, ⟨none, 0.15⟩]

def AB_BPA : ℚ := 22323
def AB_CREDIT_RATE : ℚ := 0.08

-- Union dues rate (on taxable earnings)
def UNION_DUES_RATE : ℚ := 0.0375

/-- Clamp helper of `src/unnamed/part_000` (same body as
`Calculator.clamp`). -/
def clamp (value minVal maxVal : ℚ) : ℚ :=
  max minVal (min maxVal value)

/-- Loop body of the legacy `applyProgressiveTax` (identical to the
one in `src/calculator.js`; see `Calculator.applyProgressiveTaxAux`
for the treatment of the `Infinity` bracket). -/
def applyProgressiveTaxAux : List TaxBracket → ℚ → ℚ → ℚ → ℚ
  | [], _remaining, _lastLimit, tax => tax
  | b :: bs, remaining, lastLimit, tax =>
    if remaining ≤ 0 then tax
    else
      match b.limit with
      | none =>
          applyProgressiveTaxAux bs 0 lastLimit (tax + remaining * b.rate)
      | some l =>
          let taxableAtThisRate := min remaining (l - lastLimit)
          if 0 < taxableAtThisRate then
            applyProgressiveTaxAux bs (remaining - taxableAtThisRate) l
              (tax + taxableAtThisRate * b.rate)
          else
            applyProgressiveTaxAux bs remaining lastLimit tax

/-- Progressive tax over annual income (legacy file). -/
def applyProgressiveTax (annualIncome : ℚ) (brackets : List TaxBracket) : ℚ :=
  applyProgressiveTaxAux brackets annualIncome 0 0

/-- CPP/CPP2/EI for one week (source: `calculateCppEiForWeek` of
`src/unnamed/part_000`). This variant tests `mode === "annualized"`
first and uses `Math.min` for the weekly caps where the other file
uses an `if`-assignment. -/
def calculateCppEiForWeek (taxableWeekly : ℚ) (mode : String) :
    ContributionResult :=
  let weeksPerYear : ℚ := 52
  let annualEarnings := taxableWeekly * weeksPerYear
  if mode = "annualized" then
    let cppPensionableAnnual :=
      clamp (annualEarnings - CPP_BASIC_EXEMPTION) 0
        (CPP_YMPE - CPP_BASIC_EXEMPTION)
    let cppAnnualRaw := cppPensionableAnnual * CPP_RATE
    let cppAnnual := min cppAnnualRaw CPP_MAX_CONTRIB
    let cppWeekly := cppAnnual / weeksPerYear
    let cpp2Weekly :=
      if annualEarnings > CPP_YMPE then
        let cpp2BaseAnnual :=
          clamp (annualEarnings - CPP_YMPE) 0 (CPP2_YAMPE - CPP_YMPE)
        let cpp2AnnualRaw := cpp2BaseAnnual * CPP2_RATE
        let cpp2Annual := min cpp2AnnualRaw CPP2_MAX_CONTRIB
        cpp2Annual / weeksPerYear
      else 0
    let eiInsurableAnnual := min annualEarnings EI_MAX_INSURABLE
    let eiAnnualRaw := eiInsurableAnnual * EI_RATE
    let eiAnnual := min eiAnnualRaw EI_MAX_CONTRIB
    let eiWeekly := eiAnnual / weeksPerYear
    ⟨cppWeekly, cpp2Weekly, eiWeekly⟩
  else
    let cppEarningsWeekly :=
      max 0 (taxableWeekly - CPP_BASIC_EXEMPTION / weeksPerYear)
    let cppWeeklyRaw := cppEarningsWeekly * CPP_RATE
    let cppWeeklyMax := CPP_MAX_CONTRIB / weeksPerYear
    let cppWeekly := min cppWeeklyRaw cppWeeklyMax
    let cpp2Weekly :=
      if annualEarnings > CPP_YMPE then
        let excessEarningsAnnual :=
          clamp (annualEarnings - CPP_YMPE) 0 (CPP2_YAMPE - CPP_YMPE)
        let cpp2Annual := min (excessEarningsAnnual * CPP2_RATE) CPP2_MAX_CONTRIB
        cpp2Annual / weeksPerYear
      else 0
    let eiEarningsWeekly :=
      min taxableWeekly (EI_MAX_INSURABLE / weeksPerYear)
    let eiWeeklyRaw := eiEarningsWeekly * EI_RATE
    let eiWeeklyMax := EI_MAX_CONTRIB / weeksPerYear
    let eiWeekly := min eiWeeklyRaw eiWeeklyMax
    ⟨cppWeekly, cpp2Weekly, eiWeekly⟩

/-- Legacy federal gross annual tax. -/
def calculateAnnualFederalTaxGross (annualTaxable : ℚ) : ℚ :=
  applyProgressiveTax annualTaxable FED_BRACKETS_2025

/-- Legacy Alberta gross annual tax. -/
def calculateAnnualAlbertaTaxGross (annualTaxable : ℚ) : ℚ :=
  applyProgressiveTax annualTaxable AB_BRACKETS_2025

/-- Weekly federal + Alberta income tax (source:
`calculateIncomeTaxForWeek` of `src/unnamed/part_000`; this variant
has no `mode` parameter). -/
def calculateIncomeTaxForWeek (taxableWeekly cppWeekly eiWeekly : ℚ) :
    TaxResult :=
  let weeksPerYear : ℚ := 52
  let annualTaxable := taxableWeekly * weeksPerYear
  let cppAnnual := cppWeekly * weeksPerYear
  let eiAnnual := eiWeekly * weeksPerYear
  let federalGrossAnnual := calculateAnnualFederalTaxGross annualTaxable
  let federalCreditAnnual := FED_BPA * FED_CREDIT_RATE
    + (cppAnnual + eiAnnual) * FED_CREDIT_RATE
  let federalNetAnnual := max 0 (federalGrossAnnual - federalCreditAnnual)
  let federalWeekly := federalNetAnnual / weeksPerYear
  let abGrossAnnual := calculateAnnualAlbertaTaxGross annualTaxable
  let abCreditAnnual := AB_BPA * AB_CREDIT_RATE
    + (cppAnnual + eiAnnual) * AB_CREDIT_RATE
  let abNetAnnual := max 0 (abGrossAnnual - abCreditAnnual)
  let abWeekly := abNetAnnual / weeksPerYear
  ⟨federalWeekly, abWeekly⟩

/-- Full deduction breakdown for one week (source:
`calculateDeductionsForWeek(taxableWeekly, nonTaxableWeekly, taxMode)`
of `src/unnamed/part_000`). The third argument is a bare mode value
(`none` = `undefined`); the dues rate is the fixed constant; the JS
`(nonTaxableWeekly || 0)` is the identity on every rational except
that it maps `0` to the literal `0`, modelled by the `if` below. -/
def calculateDeductionsForWeek (taxableWeekly nonTaxableWeekly : ℚ)
    (taxMode : Option String) : Breakdown :=
  let mode := if taxMode = some "annualized" then "annualized"
    else "early-year"
  let c := calculateCppEiForWeek taxableWeekly mode
  let t := calculateIncomeTaxForWeek taxableWeekly c.cpp c.ei
  let unionDues := taxableWeekly * UNION_DUES_RATE
  let totalDeductions :=
    c.cpp + c.cpp2 + c.ei + t.federalWeekly + t.abWeekly + unionDues
  let netTaxableOnly := taxableWeekly - totalDeductions
  let netPayTotal := netTaxableOnly
    + (if nonTaxableWeekly = 0 then 0 else nonTaxableWeekly)
  ⟨c.cpp, c.cpp2, c.ei, t.federalWeekly, t.abWeekly, unionDues,
    totalDeductions, netTaxableOnly, netPayTotal⟩

end Legacy

/-! General order facts used to reason about the capping and clamping
patterns of the engine. -/

/-- The `if (x > cap) x = cap` assignment pattern of the source is the
minimum with the cap. -/
lemma ite_cap_eq_min (x M : ℚ) : (if x > M then M else x) = min x M := by
  rcases le_or_lt x M with h | h
  · rw [if_neg (not_lt.mpr h), min_eq_left h]
  · rw [if_pos h, min_eq_right h.le]

/-- Capping below preserves differences: `min · M` is 1-Lipschitz. -/
lemma min_sub_min_le (a b M : ℚ) (h : b ≤ a) : min a M - min b M ≤ a - b := by
  simp only [min_def]
  split_ifs <;> linarith

/-- Flooring above preserves differences: `max M ·` is 1-Lipschitz. -/
lemma max_sub_max_le (M a b : ℚ) (h : b ≤ a) : max M a - max M b ≤ a - b := by
  simp only [max_def]
  split_ifs <;> linarith

/-- `Calculator.clamp` is monotone in the clamped value. -/
lemma clamp_mono (lo hi : ℚ) {a b : ℚ} (h : a ≤ b) :
    Calculator.clamp a lo hi ≤ Calculator.clamp b lo hi :=
  max_le_max le_rfl (min_le_min le_rfl h)

/-- `Calculator.clamp` is 1-Lipschitz in the clamped value. -/
lemma clamp_sub_clamp_le (lo hi : ℚ) {a b : ℚ} (h : b ≤ a) :
    Calculator.clamp a lo hi - Calculator.clamp b lo hi ≤ a - b := by
  unfold Calculator.clamp
  have h1 : min hi b ≤ min hi a := min_le_min le_rfl h
  have h2 : max lo (min hi a) - max lo (min hi b) ≤ min hi a - min hi b :=
    max_sub_max_le lo _ _ h1
  have h3 : min hi a - min hi b ≤ a - b := by
    rw [min_comm hi a, min_comm hi b]; exact min_sub_min_le a b hi h
  linarith

/-- `Calculator.clamp` stays between its bounds. -/
lemma clamp_nonneg (v hi : ℚ) : 0 ≤ Calculator.clamp v 0 hi :=
  le_max_left 0 _

lemma clamp_le_hi (v hi : ℚ) (h : 0 ≤ hi) : Calculator.clamp v 0 hi ≤ hi := by
  unfold Calculator.clamp
  exact max_le h (min_le_left hi v)

/-! Closed forms of the three contribution components of
`Calculator.calculateCppEiForWeek`, one pair of lemmas per component
(early-year branch / annualized branch). -/

lemma cpp_early_eq (t : ℚ) :
    (Calculator.calculateCppEiForWeek t "early-year").cpp
      = min (max 0 (t - Calculator.CPP_BASIC_EXEMPTION / 52)
          * Calculator.CPP_RATE) (Calculator.CPP_MAX_CONTRIB / 52) := by
  simp [Calculator.calculateCppEiForWeek, ite_cap_eq_min]

lemma cpp2_early_eq (t : ℚ) :
    (Calculator.calculateCppEiForWeek t "early-year").cpp2
      = if t * 52 > Calculator.CPP_YMPE then
          min (Calculator.clamp (t * 52 - Calculator.CPP_YMPE) 0
              (Calculator.CPP2_YAMPE - Calculator.CPP_YMPE)
            * Calculator.CPP2_RATE) Calculator.CPP2_MAX_CONTRIB / 52
        else 0 := by
  simp [Calculator.calculateCppEiForWeek]

lemma ei_early_eq (t : ℚ) :
    (Calculator.calculateCppEiForWeek t "early-year").ei
      = min (min t (Calculator.EI_MAX_INSURABLE / 52)
          * Calculator.EI_RATE) (Calculator.EI_MAX_CONTRIB / 52) := by
  simp [Calculator.calculateCppEiForWeek, ite_cap_eq_min]

lemma cpp_ann_eq (t : ℚ) (m : String) (hm : m ≠ "early-year") :
    (Calculator.calculateCppEiForWeek t m).cpp
      = min (Calculator.clamp (t * 52 - Calculator.CPP_BASIC_EXEMPTION) 0
          (Calculator.CPP_YMPE - Calculator.CPP_BASIC_EXEMPTION)
        * Calculator.CPP_RATE) Calculator.CPP_MAX_CONTRIB / 52 := by
  simp [Calculator.calculateCppEiForWeek, hm]

lemma cpp2_ann_eq (t : ℚ) (m : String) (hm : m ≠ "early-year") :
    (Calculator.calculateCppEiForWeek t m).cpp2
      = if t * 52 > Calculator.CPP_YMPE then
          min (Calculator.clamp (t * 52 - Calculator.CPP_YMPE) 0
              (Calculator.CPP2_YAMPE - Calculator.CPP_YMPE)
            * Calculator.CPP2_RATE) Calculator.CPP2_MAX_CONTRIB / 52
        else 0 := by
  simp [Calculator.calculateCppEiForWeek, hm]

lemma ei_ann_eq (t : ℚ) (m : String) (hm : m ≠ "early-year") :
    (Calculator.calculateCppEiForWeek t m).ei
      = min (min (t * 52) Calculator.EI_MAX_INSURABLE
          * Calculator.EI_RATE) (Calculator.EI_MAX_CONTRIB) / 52 := by
  simp [Calculator.calculateCppEiForWeek, hm]

/-! Monotonicity and Lipschitz bounds for the contribution components,
uniform in the mode string. -/

lemma cppRate_nonneg : (0 : ℚ) ≤ Calculator.CPP_RATE := by
  norm_num [Calculator.CPP_RATE]

lemma eiRate_nonneg : (0 : ℚ) ≤ Calculator.EI_RATE := by
  norm_num [Calculator.EI_RATE]

lemma cpp_mono (m : String) {t1 t2 : ℚ} (h : t1 ≤ t2) :
    (Calculator.calculateCppEiForWeek t1 m).cpp
      ≤ (Calculator.calculateCppEiForWeek t2 m).cpp := by
  by_cases hm : m = "early-year"
  · subst hm
    rw [cpp_early_eq, cpp_early_eq]
    exact min_le_min (mul_le_mul_of_nonneg_right
      (max_le_max le_rfl (by linarith)) cppRate_nonneg) le_rfl
  · rw [cpp_ann_eq t1 m hm, cpp_ann_eq t2 m hm]
    have hc : Calculator.clamp (t1 * 52 - Calculator.CPP_BASIC_EXEMPTION) 0
        (Calculator.CPP_YMPE - Calculator.CPP_BASIC_EXEMPTION)
        ≤ Calculator.clamp (t2 * 52 - Calculator.CPP_BASIC_EXEMPTION) 0
          (Calculator.CPP_YMPE - Calculator.CPP_BASIC_EXEMPTION) :=
      clamp_mono _ _ (by linarith)
    have := min_le_min (mul_le_mul_of_nonneg_right hc cppRate_nonneg)
      (le_refl Calculator.CPP_MAX_CONTRIB)
    linarith

lemma cpp_lip (m : String) {t1 t2 : ℚ} (h : t1 ≤ t2) :
    (Calculator.calculateCppEiForWeek t2 m).cpp
      - (Calculator.calculateCppEiForWeek t1 m).cpp
      ≤ Calculator.CPP_RATE * (t2 - t1) := by
  by_cases hm : m = "early-year"
  · subst hm
    rw [cpp_early_eq, cpp_early_eq]
    set c := Calculator.CPP_BASIC_EXEMPTION / 52 with hc
    have hmaxmono : max 0 (t1 - c) ≤ max 0 (t2 - c) :=
      max_le_max le_rfl (by linarith)
    have hmaxlip : max 0 (t2 - c) - max 0 (t1 - c) ≤ (t2 - c) - (t1 - c) :=
      max_sub_max_le 0 _ _ (by linarith)
    have hrawmono : max 0 (t1 - c) * Calculator.CPP_RATE
        ≤ max 0 (t2 - c) * Calculator.CPP_RATE :=
      mul_le_mul_of_nonneg_right hmaxmono cppRate_nonneg
    have hrawlip : max 0 (t2 - c) * Calculator.CPP_RATE
        - max 0 (t1 - c) * Calculator.CPP_RATE
        ≤ (t2 - t1) * Calculator.CPP_RATE := by
      have := mul_le_mul_of_nonneg_right
        (show max 0 (t2 - c) - max 0 (t1 - c) ≤ t2 - t1 by linarith)
        cppRate_nonneg
      linarith [this]
    have := min_sub_min_le (max 0 (t2 - c) * Calculator.CPP_RATE)
      (max 0 (t1 - c) * Calculator.CPP_RATE)
      (Calculator.CPP_MAX_CONTRIB / 52) hrawmono
    linarith
  · rw [cpp_ann_eq t1 m hm, cpp_ann_eq t2 m hm]
    set lo := (0 : ℚ)
    set hi := Calculator.CPP_YMPE - Calculator.CPP_BASIC_EXEMPTION with hhi
    set a1 := t1 * 52 - Calculator.CPP_BASIC_EXEMPTION with ha1
    set a2 := t2 * 52 - Calculator.CPP_BASIC_EXEMPTION with ha2
    have hmono : Calculator.clamp a1 lo hi ≤ Calculator.clamp a2 lo hi :=
      clamp_mono _ _ (by rw [ha1, ha2]; linarith)
    have hlip : Calculator.clamp a2 lo hi - Calculator.clamp a1 lo hi
        ≤ a2 - a1 := clamp_sub_clamp_le _ _ (by rw [ha1, ha2]; linarith)
    have hrawmono : Calculator.clamp a1 lo hi * Calculator.CPP_RATE
        ≤ Calculator.clamp a2 lo hi * Calculator.CPP_RATE :=
      mul_le_mul_of_nonneg_right hmono cppRate_nonneg
    have hrawlip : Calculator.clamp a2 lo hi * Calculator.CPP_RATE
        - Calculator.clamp a1 lo hi * Calculator.CPP_RATE
        ≤ (a2 - a1) * Calculator.CPP_RATE := by
      have := mul_le_mul_of_nonneg_right
        (show Calculator.clamp a2 lo hi - Calculator.clamp a1 lo hi
          ≤ a2 - a1 from hlip) cppRate_nonneg
      linarith [this]
    have hminlip := min_sub_min_le (Calculator.clamp a2 lo hi * Calculator.CPP_RATE)
      (Calculator.clamp a1 lo hi * Calculator.CPP_RATE)
      Calculator.CPP_MAX_CONTRIB hrawmono
    have ha : (a2 - a1) * Calculator.CPP_RATE
        = 52 * (Calculator.CPP_RATE * (t2 - t1)) := by
      rw [ha1, ha2]; ring
    linarith

lemma ei_mono (m : String) {t1 t2 : ℚ} (h : t1 ≤ t2) :
    (Calculator.calculateCppEiForWeek t1 m).ei
      ≤ (Calculator.calculateCppEiForWeek t2 m).ei := by
  by_cases hm : m = "early-year"
  · subst hm
    rw [ei_early_eq, ei_early_eq]
    exact min_le_min (mul_le_mul_of_nonneg_right
      (min_le_min h le_rfl) eiRate_nonneg) le_rfl
  · rw [ei_ann_eq t1 m hm, ei_ann_eq t2 m hm]
    have := min_le_min (mul_le_mul_of_nonneg_right
      (min_le_min (show t1 * 52 ≤ t2 * 52 by linarith)
        (le_refl Calculator.EI_MAX_INSURABLE)) eiRate_nonneg)
      (le_refl Calculator.EI_MAX_CONTRIB)
    linarith

lemma ei_lip (m : String) {t1 t2 : ℚ} (h : t1 ≤ t2) :
    (Calculator.calculateCppEiForWeek t2 m).ei
      - (Calculator.calculateCppEiForWeek t1 m).ei
      ≤ Calculator.EI_RATE * (t2 - t1) := by
  by_cases hm : m = "early-year"
  · subst hm
    rw [ei_early_eq, ei_early_eq]
    set c := Calculator.EI_MAX_INSURABLE / 52 with hc
    have hmono : min t1 c ≤ min t2 c := min_le_min h le_rfl
    have hlip : min t2 c - min t1 c ≤ t2 - t1 := min_sub_min_le t2 t1 c h
    have hrawmono : min t1 c * Calculator.EI_RATE
        ≤ min t2 c * Calculator.EI_RATE :=
      mul_le_mul_of_nonneg_right hmono eiRate_nonneg
    have hrawlip : min t2 c * Calculator.EI_RATE - min t1 c * Calculator.EI_RATE
        ≤ (t2 - t1) * Calculator.EI_RATE := by
      have := mul_le_mul_of_nonneg_right hlip eiRate_nonneg
      linarith [this]
    have := min_sub_min_le (min t2 c * Calculator.EI_RATE)
      (min t1 c * Calculator.EI_RATE) (Calculator.EI_MAX_CONTRIB / 52) hrawmono
    linarith
  · rw [ei_ann_eq t1 m hm, ei_ann_eq t2 m hm]
    have hmono : min (t1 * 52) Calculator.EI_MAX_INSURABLE
        ≤ min (t2 * 52) Calculator.EI_MAX_INSURABLE :=
      min_le_min (by linarith) le_rfl
    have hlip : min (t2 * 52) Calculator.EI_MAX_INSURABLE
        - min (t1 * 52) Calculator.EI_MAX_INSURABLE ≤ t2 * 52 - t1 * 52 :=
      min_sub_min_le _ _ _ (by linarith)
    have hrawmono : min (t1 * 52) Calculator.EI_MAX_INSURABLE * Calculator.EI_RATE
        ≤ min (t2 * 52) Calculator.EI_MAX_INSURABLE * Calculator.EI_RATE :=
      mul_le_mul_of_nonneg_right hmono eiRate_nonneg
    have hrawlip : min (t2 * 52) Calculator.EI_MAX_INSURABLE * Calculator.EI_RATE
        - min (t1 * 52) Calculator.EI_MAX_INSURABLE * Calculator.EI_RATE
        ≤ (t2 * 52 - t1 * 52) * Calculator.EI_RATE := by
      have := mul_le_mul_of_nonneg_right hlip eiRate_nonneg
      linarith [this]
    have hminlip := min_sub_min_le
      (min (t2 * 52) Calculator.EI_MAX_INSURABLE * Calculator.EI_RATE)
      (min (t1 * 52) Calculator.EI_MAX_INSURABLE * Calculator.EI_RATE)
      Calculator.EI_MAX_CONTRIB hrawmono
    have ha : (t2 * 52 - t1 * 52) * Calculator.EI_RATE
        = 52 * (Calculator.EI_RATE * (t2 - t1)) := by ring
    linarith

lemma cpp2_formula_nonneg (t : ℚ) :
    0 ≤ (if t * 52 > Calculator.CPP_YMPE then
        min (Calculator.clamp (t * 52 - Calculator.CPP_YMPE) 0
            (Calculator.CPP2_YAMPE - Calculator.CPP_YMPE)
          * Calculator.CPP2_RATE) Calculator.CPP2_MAX_CONTRIB / 52
      else 0) := by
  split_ifs
  · have h1 : 0 ≤ Calculator.clamp (t * 52 - Calculator.CPP_YMPE) 0
        (Calculator.CPP2_YAMPE - Calculator.CPP_YMPE)
        * Calculator.CPP2_RATE :=
      mul_nonneg (clamp_nonneg _ _) (by norm_num [Calculator.CPP2_RATE])
    have h2 : (0 : ℚ) ≤ Calculator.CPP2_MAX_CONTRIB := by
      norm_num [Calculator.CPP2_MAX_CONTRIB]
    positivity
  · exact le_rfl

/-! Cap bounds for the three contributions, uniform in the mode string,
and exact attainment of the caps for large weekly earnings. -/

lemma cpp_le_cap (m : String) (t : ℚ) :
    (Calculator.calculateCppEiForWeek t m).cpp
      ≤ Calculator.CPP_MAX_CONTRIB / 52 := by
  by_cases hm : m = "early-year"
  · subst hm
    rw [cpp_early_eq]
    exact min_le_right _ _
  · rw [cpp_ann_eq t m hm]
    have h1 : min (Calculator.clamp (t * 52 - Calculator.CPP_BASIC_EXEMPTION) 0
        (Calculator.CPP_YMPE - Calculator.CPP_BASIC_EXEMPTION)
        * Calculator.CPP_RATE) Calculator.CPP_MAX_CONTRIB
        ≤ Calculator.CPP_MAX_CONTRIB := min_le_right _ _
    linarith

lemma cpp2_le_cap (m : String) (t : ℚ) :
    (Calculator.calculateCppEiForWeek t m).cpp2
      ≤ Calculator.CPP2_MAX_CONTRIB / 52 := by
  have key : ∀ x : ℚ, (if t * 52 > Calculator.CPP_YMPE then
        min x Calculator.CPP2_MAX_CONTRIB / 52 else 0)
      ≤ Calculator.CPP2_MAX_CONTRIB / 52 := by
    intro x
    split_ifs
    · have := min_le_right x Calculator.CPP2_MAX_CONTRIB
      linarith
    · norm_num [Calculator.CPP2_MAX_CONTRIB]
  by_cases hm : m = "early-year"
  · subst hm; rw [cpp2_early_eq]; exact key _
  · rw [cpp2_ann_eq t m hm]; exact key _

lemma ei_le_cap (m : String) (t : ℚ) :
    (Calculator.calculateCppEiForWeek t m).ei
      ≤ Calculator.EI_MAX_CONTRIB / 52 := by
  by_cases hm : m = "early-year"
  · subst hm
    rw [ei_early_eq]
    exact min_le_right _ _
  · rw [ei_ann_eq t m hm]
    have := min_le_right (min (t * 52) Calculator.EI_MAX_INSURABLE
      * Calculator.EI_RATE) Calculator.EI_MAX_CONTRIB
    linarith

lemma cpp_eq_cap_large (m : String) {t : ℚ} (ht : 81200 / 52 ≤ t) :
    (Calculator.calculateCppEiForWeek t m).cpp
      = Calculator.CPP_MAX_CONTRIB / 52 := by
  by_cases hm : m = "early-year"
  · subst hm
    rw [cpp_early_eq]
    rw [max_eq_right (by norm_num [Calculator.CPP_BASIC_EXEMPTION]; linarith)]
    rw [min_eq_right (by
      norm_num [Calculator.CPP_BASIC_EXEMPTION, Calculator.CPP_RATE,
        Calculator.CPP_MAX_CONTRIB]
      linarith)]
  · rw [cpp_ann_eq t m hm]
    have hcl : Calculator.clamp (t * 52 - Calculator.CPP_BASIC_EXEMPTION) 0
        (Calculator.CPP_YMPE - Calculator.CPP_BASIC_EXEMPTION)
        = Calculator.CPP_YMPE - Calculator.CPP_BASIC_EXEMPTION := by
      unfold Calculator.clamp
      rw [min_eq_left (by
        norm_num [Calculator.CPP_BASIC_EXEMPTION, Calculator.CPP_YMPE]
        linarith)]
      rw [max_eq_right (by
        norm_num [Calculator.CPP_BASIC_EXEMPTION, Calculator.CPP_YMPE])]
    rw [hcl]
    norm_num [Calculator.CPP_BASIC_EXEMPTION, Calculator.CPP_YMPE,
      Calculator.CPP_RATE, Calculator.CPP_MAX_CONTRIB]

lemma cpp2_eq_cap_large (m : String) {t : ℚ} (ht : 81200 / 52 ≤ t) :
    (Calculator.calculateCppEiForWeek t m).cpp2
      = Calculator.CPP2_MAX_CONTRIB / 52 := by
  have hcl : Calculator.clamp (t * 52 - Calculator.CPP_YMPE) 0
      (Calculator.CPP2_YAMPE - Calculator.CPP_YMPE)
      = Calculator.CPP2_YAMPE - Calculator.CPP_YMPE := by
    unfold Calculator.clamp
    rw [min_eq_left (by
      norm_num [Calculator.CPP_YMPE, Calculator.CPP2_YAMPE]
      linarith)]
    rw [max_eq_right (by
      norm_num [Calculator.CPP_YMPE, Calculator.CPP2_YAMPE])]
  have hcond : t * 52 > Calculator.CPP_YMPE := by
    norm_num [Calculator.CPP_YMPE]
    linarith
  have key : (if t * 52 > Calculator.CPP_YMPE then
      min (Calculator.clamp (t * 52 - Calculator.CPP_YMPE) 0
          (Calculator.CPP2_YAMPE - Calculator.CPP_YMPE)
        * Calculator.CPP2_RATE) Calculator.CPP2_MAX_CONTRIB / 52
      else 0) = Calculator.CPP2_MAX_CONTRIB / 52 := by
    rw [if_pos hcond, hcl]
    norm_num [Calculator.CPP_YMPE, Calculator.CPP2_YAMPE,
      Calculator.CPP2_RATE, Calculator.CPP2_MAX_CONTRIB]
  by_cases hm : m = "early-year"
  · subst hm; rw [cpp2_early_eq]; exact key
  · rw [cpp2_ann_eq t m hm]; exact key

lemma ei_eq_cap_large (m : String) {t : ℚ} (ht : 81200 / 52 ≤ t) :
    (Calculator.calculateCppEiForWeek t m).ei
      = Calculator.EI_MAX_CONTRIB / 52 := by
  by_cases hm : m = "early-year"
  · subst hm
    rw [ei_early_eq]
    rw [min_eq_right (show Calculator.EI_MAX_INSURABLE / 52 ≤ t from by
      norm_num [Calculator.EI_MAX_INSURABLE]; linarith)]
    norm_num [Calculator.EI_MAX_INSURABLE, Calculator.EI_RATE,
      Calculator.EI_MAX_CONTRIB]
  · rw [ei_ann_eq t m hm]
    rw [min_eq_right (show Calculator.EI_MAX_INSURABLE ≤ t * 52 from by
      norm_num [Calculator.EI_MAX_INSURABLE]; linarith)]
    norm_num [Calculator.EI_MAX_INSURABLE, Calculator.EI_RATE,
      Calculator.EI_MAX_CONTRIB]

/-! Facts about the progressive tax evaluator. Both bracket schedules
are strictly increasing with all marginal rates at least the first
rate and a final unbounded bracket; under those hypotheses the gross
tax grows at least at the first marginal rate. -/

/-- The bracket list ends with the unbounded (`Infinity`) sentinel. -/
def endsUnbounded : List TaxBracket → Prop
  | [] => False
  | [b] => b.limit = none
  | _ :: b :: bs => endsUnbounded (b :: bs)

lemma applyAux_add (bs : List TaxBracket) :
    ∀ rem ll tax c, Calculator.applyProgressiveTaxAux bs rem ll (tax + c)
      = Calculator.applyProgressiveTaxAux bs rem ll tax + c := by
  induction bs with
  | nil => intro rem ll tax c; rfl
  | cons b bs ih =>
    intro rem ll tax c
    rcases b with ⟨hl, rate⟩
    rcases hl with _ | l
    · by_cases h : rem ≤ 0
      · simp [Calculator.applyProgressiveTaxAux, h]
      · simp only [Calculator.applyProgressiveTaxAux, if_neg h]
        rw [show tax + c + rem * rate = tax + rem * rate + c by ring, ih]
    · by_cases h : rem ≤ 0
      · simp [Calculator.applyProgressiveTaxAux, h]
      · simp only [Calculator.applyProgressiveTaxAux, if_neg h]
        by_cases hs : 0 < min rem (l - ll)
        · rw [if_pos hs, if_pos hs,
            show tax + c + min rem (l - ll) * rate
              = tax + min rem (l - ll) * rate + c by ring, ih]
        · rw [if_neg hs, if_neg hs, ih]

lemma applyAux_nil (rem ll tax : ℚ) :
    Calculator.applyProgressiveTaxAux [] rem ll tax = tax := rfl

lemma applyAux_stop (b : TaxBracket) (bs : List TaxBracket)
    (rem ll tax : ℚ) (h : rem ≤ 0) :
    Calculator.applyProgressiveTaxAux (b :: bs) rem ll tax = tax := by
  rcases b with ⟨hl, rate⟩
  rcases hl with _ | l <;> simp only [Calculator.applyProgressiveTaxAux, if_pos h]

lemma applyAux_cons_none (rate : ℚ) (bs : List TaxBracket)
    (rem ll tax : ℚ) (h : ¬ rem ≤ 0) :
    Calculator.applyProgressiveTaxAux (⟨none, rate⟩ :: bs) rem ll tax
      = Calculator.applyProgressiveTaxAux bs 0 ll (tax + rem * rate) := by
  simp only [Calculator.applyProgressiveTaxAux, if_neg h]

lemma applyAux_cons_some (l rate : ℚ) (bs : List TaxBracket)
    (rem ll tax : ℚ) (h : ¬ rem ≤ 0) :
    Calculator.applyProgressiveTaxAux (⟨some l, rate⟩ :: bs) rem ll tax
      = if 0 < min rem (l - ll) then
          Calculator.applyProgressiveTaxAux bs (rem - min rem (l - ll)) l
            (tax + min rem (l - ll) * rate)
        else Calculator.applyProgressiveTaxAux bs rem ll tax := by
  simp only [Calculator.applyProgressiveTaxAux, if_neg h]

lemma applyAux_lower (rmin : ℚ) (h0 : 0 ≤ rmin) (bs : List TaxBracket) :
    ∀ _hr : (∀ b ∈ bs, rmin ≤ b.rate), ∀ _he : endsUnbounded bs,
    ∀ rem ll tax, 0 ≤ rem →
      tax + rmin * rem ≤ Calculator.applyProgressiveTaxAux bs rem ll tax := by
  induction bs with
  | nil => intro _ he; exact absurd he (by simp [endsUnbounded])
  | cons b bs ih =>
    intro hr he rem ll tax hrem
    rcases b with ⟨hl, rate⟩
    have hrate : rmin ≤ rate := hr ⟨hl, rate⟩ (List.mem_cons_self _ _)
    by_cases h : rem ≤ 0
    · have hz : rem = 0 := le_antisymm h hrem
      rw [applyAux_stop _ _ _ _ _ h, hz]
      linarith
    · have hrpos : 0 < rem := lt_of_not_ge fun hh => h (by linarith)
      have hmul : rmin * rem ≤ rate * rem :=
        mul_le_mul_of_nonneg_right hrate hrem
      rcases hl with _ | l
      · -- unbounded bracket: the whole remainder is taxed at `rate`
        rw [applyAux_cons_none _ _ _ _ _ h]
        cases bs with
        | nil =>
          rw [applyAux_nil]
          nlinarith
        | cons b2 bs2 =>
          have he2 : endsUnbounded (b2 :: bs2) := he
          have hr2 : ∀ x ∈ b2 :: bs2, rmin ≤ x.rate :=
            fun x hx => hr x (List.mem_cons_of_mem _ hx)
          have := ih hr2 he2 0 ll (tax + rem * rate) le_rfl
          nlinarith
      · -- bounded bracket
        cases bs with
        | nil => simp [endsUnbounded] at he
        | cons b2 bs2 =>
          have he2 : endsUnbounded (b2 :: bs2) := he
          have hr2 : ∀ x ∈ b2 :: bs2, rmin ≤ x.rate :=
            fun x hx => hr x (List.mem_cons_of_mem _ hx)
          rw [applyAux_cons_some _ _ _ _ _ _ h]
          by_cases hs : 0 < min rem (l - ll)
          · rw [if_pos hs]
            have hsle : min rem (l - ll) ≤ rem := min_le_left _ _
            have := ih hr2 he2 (rem - min rem (l - ll)) l
              (tax + min rem (l - ll) * rate) (by linarith)
            have hmul2 : rmin * min rem (l - ll) ≤ rate * min rem (l - ll) :=
              mul_le_mul_of_nonneg_right hrate (le_of_lt hs)
            have hexp : rmin * (rem - min rem (l - ll))
                = rmin * rem - rmin * min rem (l - ll) := by ring
            rw [hexp] at this
            linarith
          · rw [if_neg hs]
            exact ih hr2 he2 rem ll tax hrem

lemma applyAux_slope (rmin : ℚ) (h0 : 0 ≤ rmin) (bs : List TaxBracket) :
    ∀ _hr : (∀ b ∈ bs, rmin ≤ b.rate), ∀ _he : endsUnbounded bs,
    ∀ ll tax r1 r2, 0 ≤ r1 → r1 ≤ r2 →
      Calculator.applyProgressiveTaxAux bs r1 ll tax + rmin * (r2 - r1)
        ≤ Calculator.applyProgressiveTaxAux bs r2 ll tax := by
  induction bs with
  | nil => intro _ he; exact absurd he (by simp [endsUnbounded])
  | cons b bs ih =>
    intro hr he ll tax r1 r2 hr1 hr12
    by_cases h1 : r1 ≤ 0
    · -- here r1 = 0 and the result for r1 is just `tax`
      have hz : r1 = 0 := le_antisymm h1 hr1
      subst hz
      rcases b with ⟨hl, rate⟩
      have hfirst : Calculator.applyProgressiveTaxAux (⟨hl, rate⟩ :: bs) 0 ll tax
          = tax := by
        rcases hl with _ | l <;>
          simp [Calculator.applyProgressiveTaxAux]
      rw [hfirst]
      have := applyAux_lower rmin h0 (⟨hl, rate⟩ :: bs) hr he r2 ll tax
        (by linarith)
      linarith
    · have h1pos : 0 < r1 := lt_of_not_ge h1
      have h2pos : 0 < r2 := lt_of_lt_of_le h1pos hr12
      have h2n : ¬ r2 ≤ 0 := not_le.mpr h2pos
      have h1n : ¬ r1 ≤ 0 := not_le.mpr h1pos
      rcases b with ⟨hl, rate⟩
      have hrate : rmin ≤ rate := hr ⟨hl, rate⟩ (List.mem_cons_self _ _)
      rcases hl with _ | l
      · rw [applyAux_cons_none _ _ _ _ _ h1n, applyAux_cons_none _ _ _ _ _ h2n]
        rw [show (tax + r2 * rate) = (tax + r1 * rate) + (r2 - r1) * rate by ring]
        rw [applyAux_add bs 0 ll (tax + r1 * rate) ((r2 - r1) * rate)]
        have : rmin * (r2 - r1) ≤ (r2 - r1) * rate := by nlinarith
        linarith
      · cases bs with
        | nil => simp [endsUnbounded] at he
        | cons b2 bs2 =>
          have he2 : endsUnbounded (b2 :: bs2) := he
          have hr2 : ∀ x ∈ b2 :: bs2, rmin ≤ x.rate :=
            fun x hx => hr x (List.mem_cons_of_mem _ hx)
          rw [applyAux_cons_some _ _ _ _ _ _ h1n,
            applyAux_cons_some _ _ _ _ _ _ h2n]
          have hsmono : min r1 (l - ll) ≤ min r2 (l - ll) :=
            min_le_min hr12 le_rfl
          by_cases hs1 : 0 < min r1 (l - ll)
          · have hs2 : 0 < min r2 (l - ll) := lt_of_lt_of_le hs1 hsmono
            rw [if_pos hs1, if_pos hs2]
            set s1 := min r1 (l - ll) with hs1d
            set s2 := min r2 (l - ll) with hs2d
            have hs1r : s1 ≤ r1 := min_le_left _ _
            have hs2r : s2 ≤ r2 := min_le_left _ _
            have hrdiff : r1 - s1 ≤ r2 - s2 := by
              rw [hs1d, hs2d]
              rcases le_total r1 (l - ll) with hc1 | hc1 <;>
                rcases le_total r2 (l - ll) with hc2 | hc2 <;>
                simp [min_eq_left, min_eq_right, hc1, hc2] <;> linarith
            have hIH := ih hr2 he2 l (tax + s1 * rate) (r1 - s1) (r2 - s2)
              (by linarith) hrdiff
            have hadd : Calculator.applyProgressiveTaxAux (b2 :: bs2)
                (r2 - s2) l (tax + s2 * rate)
                = Calculator.applyProgressiveTaxAux (b2 :: bs2)
                    (r2 - s2) l (tax + s1 * rate) + (s2 - s1) * rate := by
              rw [show tax + s2 * rate = (tax + s1 * rate) + (s2 - s1) * rate
                by ring, applyAux_add (b2 :: bs2) (r2 - s2) l
                  (tax + s1 * rate) ((s2 - s1) * rate)]
            rw [hadd]
            have hmulr : rmin * (s2 - s1) ≤ (s2 - s1) * rate := by nlinarith
            have hexp : rmin * ((r2 - s2) - (r1 - s1))
                = rmin * (r2 - r1) - rmin * (s2 - s1) := by ring
            rw [hexp] at hIH
            linarith
          · have hwle : l - ll ≤ 0 := by
              rcases min_le_iff.mp (not_lt.mp hs1) with hc | hc
              · linarith
              · exact hc
            have hs2 : ¬ 0 < min r2 (l - ll) := by
              have : min r2 (l - ll) ≤ l - ll := min_le_right _ _
              push_neg
              linarith
            rw [if_neg hs1, if_neg hs2]
            exact ih hr2 he2 ll tax r1 r2 hr1 hr12

lemma fed_rates_ge : ∀ b ∈ Calculator.FED_BRACKETS_2025, (0.15 : ℚ) ≤ b.rate := by
  intro b hb
  simp only [Calculator.FED_BRACKETS_2025, List.mem_cons, List.mem_singleton] at hb
  rcases hb with rfl | rfl | rfl | rfl | rfl | h
  · norm_num
  · norm_num
  · norm_num
  · norm_num
  · norm_num
  · simp at h

lemma fed_ends : endsUnbounded Calculator.FED_BRACKETS_2025 := by
  simp [Calculator.FED_BRACKETS_2025, endsUnbounded]

lemma ab_rates_ge : ∀ b ∈ Calculator.AB_BRACKETS_2025, (0.08 : ℚ) ≤ b.rate := by
  intro b hb
  simp only [Calculator.AB_BRACKETS_2025, List.mem_cons, List.mem_singleton] at hb
  rcases hb with rfl | rfl | rfl | rfl | rfl | rfl | h
  · norm_num
  · norm_num
  · norm_num
  · norm_num
  · norm_num
  · norm_num
  · simp at h

lemma ab_ends : endsUnbounded Calculator.AB_BRACKETS_2025 := by
  simp [Calculator.AB_BRACKETS_2025, endsUnbounded]

/-- The federal gross annual tax grows at least at the lowest marginal
rate on nonnegative incomes. -/
lemma fedGross_slope {a1 a2 : ℚ} (h0 : 0 ≤ a1) (h : a1 ≤ a2) :
    Calculator.calculateAnnualFederalTaxGross a1 + 0.15 * (a2 - a1)
      ≤ Calculator.calculateAnnualFederalTaxGross a2 := by
  unfold Calculator.calculateAnnualFederalTaxGross Calculator.applyProgressiveTax
  exact applyAux_slope 0.15 (by norm_num) _ fed_rates_ge fed_ends 0 0 a1 a2 h0 h

/-- The Alberta gross annual tax grows at least at the lowest marginal
rate on nonnegative incomes. -/
lemma abGross_slope {a1 a2 : ℚ} (h0 : 0 ≤ a1) (h : a1 ≤ a2) :
    Calculator.calculateAnnualAlbertaTaxGross a1 + 0.08 * (a2 - a1)
      ≤ Calculator.calculateAnnualAlbertaTaxGross a2 := by
  unfold Calculator.calculateAnnualAlbertaTaxGross Calculator.applyProgressiveTax
  exact applyAux_slope 0.08 (by norm_num) _ ab_rates_ge ab_ends 0 0 a1 a2 h0 h

/-- Weekly federal tax is monotone when the contribution credits grow no
faster than their statutory rates allow. -/
lemma fedWeekly_mono (m : String) {t1 t2 c1 c2 e1 e2 : ℚ}
    (h0 : 0 ≤ t1) (ht : t1 ≤ t2)
    (hcd : c2 - c1 ≤ Calculator.CPP_RATE * (t2 - t1))
    (hed : e2 - e1 ≤ Calculator.EI_RATE * (t2 - t1)) :
    (Calculator.calculateIncomeTaxForWeek t1 c1 e1 m).federalWeekly
      ≤ (Calculator.calculateIncomeTaxForWeek t2 c2 e2 m).federalWeekly := by
  simp only [Calculator.calculateIncomeTaxForWeek]
  have hg := @fedGross_slope (t1 * 52) (t2 * 52)
    (by linarith) (by linarith)
  have hrate1 : Calculator.CPP_RATE = (0.0595 : ℚ) := rfl
  have hrate2 : Calculator.EI_RATE = (0.0164 : ℚ) := rfl
  have hrate3 : Calculator.FED_CREDIT_RATE = (0.145 : ℚ) := rfl
  rw [hrate1] at hcd
  rw [hrate2] at hed
  have hinner : Calculator.calculateAnnualFederalTaxGross (t1 * 52)
        - (Calculator.FED_BPA * Calculator.FED_CREDIT_RATE
          + (c1 * 52 + e1 * 52) * Calculator.FED_CREDIT_RATE)
      ≤ Calculator.calculateAnnualFederalTaxGross (t2 * 52)
        - (Calculator.FED_BPA * Calculator.FED_CREDIT_RATE
          + (c2 * 52 + e2 * 52) * Calculator.FED_CREDIT_RATE) := by
    rw [hrate3]
    linarith
  have hmax := max_le_max (le_refl (0 : ℚ)) hinner
  linarith

/-- Weekly Alberta tax is monotone when the contribution credits grow no
faster than their statutory rates allow. -/
lemma abWeekly_mono (m : String) {t1 t2 c1 c2 e1 e2 : ℚ}
    (h0 : 0 ≤ t1) (ht : t1 ≤ t2)
    (hcd : c2 - c1 ≤ Calculator.CPP_RATE * (t2 - t1))
    (hed : e2 - e1 ≤ Calculator.EI_RATE * (t2 - t1)) :
    (Calculator.calculateIncomeTaxForWeek t1 c1 e1 m).abWeekly
      ≤ (Calculator.calculateIncomeTaxForWeek t2 c2 e2 m).abWeekly := by
  simp only [Calculator.calculateIncomeTaxForWeek]
  have hg := @abGross_slope (t1 * 52) (t2 * 52)
    (by linarith) (by linarith)
  have hrate1 : Calculator.CPP_RATE = (0.0595 : ℚ) := rfl
  have hrate2 : Calculator.EI_RATE = (0.0164 : ℚ) := rfl
  have hrate3 : Calculator.AB_CREDIT_RATE = (0.08 : ℚ) := rfl
  rw [hrate1] at hcd
  rw [hrate2] at hed
  have hinner : Calculator.calculateAnnualAlbertaTaxGross (t1 * 52)
        - (Calculator.AB_BPA * Calculator.AB_CREDIT_RATE
          + (c1 * 52 + e1 * 52) * Calculator.AB_CREDIT_RATE)
      ≤ Calculator.calculateAnnualAlbertaTaxGross (t2 * 52)
        - (Calculator.AB_BPA * Calculator.AB_CREDIT_RATE
          + (c2 * 52 + e2 * 52) * Calculator.AB_CREDIT_RATE) := by
    rw [hrate3]
    linarith
  have hmax := max_le_max (le_refl (0 : ℚ)) hinner
  linarith

lemma cpp2_mono (m : String) {t1 t2 : ℚ} (h : t1 ≤ t2) :
    (Calculator.calculateCppEiForWeek t1 m).cpp2
      ≤ (Calculator.calculateCppEiForWeek t2 m).cpp2 := by
  have key : ∀ u1 u2 : ℚ, u1 ≤ u2 →
      (if u1 * 52 > Calculator.CPP_YMPE then
        min (Calculator.clamp (u1 * 52 - Calculator.CPP_YMPE) 0
            (Calculator.CPP2_YAMPE - Calculator.CPP_YMPE)
          * Calculator.CPP2_RATE) Calculator.CPP2_MAX_CONTRIB / 52
      else 0)
      ≤ (if u2 * 52 > Calculator.CPP_YMPE then
        min (Calculator.clamp (u2 * 52 - Calculator.CPP_YMPE) 0
            (Calculator.CPP2_YAMPE - Calculator.CPP_YMPE)
          * Calculator.CPP2_RATE) Calculator.CPP2_MAX_CONTRIB / 52
      else 0) := by
    intro u1 u2 hu
    by_cases h1 : u1 * 52 > Calculator.CPP_YMPE
    · have h2 : u2 * 52 > Calculator.CPP_YMPE := by
        have : u1 * 52 ≤ u2 * 52 := by linarith
        linarith
      rw [if_pos h1, if_pos h2]
      have hc : Calculator.clamp (u1 * 52 - Calculator.CPP_YMPE) 0
          (Calculator.CPP2_YAMPE - Calculator.CPP_YMPE)
          ≤ Calculator.clamp (u2 * 52 - Calculator.CPP_YMPE) 0
            (Calculator.CPP2_YAMPE - Calculator.CPP_YMPE) :=
        clamp_mono _ _ (by linarith)
      have := min_le_min (mul_le_mul_of_nonneg_right hc
        (show (0:ℚ) ≤ Calculator.CPP2_RATE by norm_num [Calculator.CPP2_RATE]))
        (le_refl Calculator.CPP2_MAX_CONTRIB)
      linarith
    · rw [if_neg h1]
      exact cpp2_formula_nonneg u2
  by_cases hm : m = "early-year"
  · subst hm
    rw [cpp2_early_eq, cpp2_early_eq]
    exact key t1 t2 h
  · rw [cpp2_ann_eq t1 m hm, cpp2_ann_eq t2 m hm]
    exact key t1 t2 h

/-! Claim theorems. Each theorem corresponds to one claim of the frozen
claim list and is stated over the embedded source functions. -/

/-- C1: for every real `taxableWeekly` and both mode strings, the three
outputs of `calculateCppEiForWeek` are bounded by the statutory annual
caps divided by 52, and for every `taxableWeekly ≥ 81200/52` each output
equals its weekly-equivalent cap exactly. -/
theorem claim1_contribution_caps (t : ℚ) (m : String)
    (_hm : m = "early-year" ∨ m = "annualized") :
    ((Calculator.calculateCppEiForWeek t m).cpp ≤ 4034.10 / 52
      ∧ (Calculator.calculateCppEiForWeek t m).cpp2 ≤ 396.00 / 52
      ∧ (Calculator.calculateCppEiForWeek t m).ei ≤ 1077.48 / 52)
    ∧ (81200 / 52 ≤ t →
        (Calculator.calculateCppEiForWeek t m).cpp = 4034.10 / 52
        ∧ (Calculator.calculateCppEiForWeek t m).cpp2 = 396.00 / 52
        ∧ (Calculator.calculateCppEiForWeek t m).ei = 1077.48 / 52) := by
  refine ⟨⟨?_, ?_, ?_⟩, fun ht => ⟨?_, ?_, ?_⟩⟩
  · have h := cpp_le_cap m t
    norm_num [Calculator.CPP_MAX_CONTRIB] at h ⊢
    exact h
  · have h := cpp2_le_cap m t
    norm_num [Calculator.CPP2_MAX_CONTRIB] at h ⊢
    exact h
  · have h := ei_le_cap m t
    norm_num [Calculator.EI_MAX_CONTRIB] at h ⊢
    exact h
  · have h := cpp_eq_cap_large m ht
    norm_num [Calculator.CPP_MAX_CONTRIB] at h ⊢
    exact h
  · have h := cpp2_eq_cap_large m ht
    norm_num [Calculator.CPP2_MAX_CONTRIB] at h ⊢
    exact h
  · have h := ei_eq_cap_large m ht
    norm_num [Calculator.EI_MAX_CONTRIB] at h ⊢
    exact h

/-- Witness for C1 at the concrete input `taxableWeekly = 2000` in
early-year mode, where all three caps are attained. -/
theorem claim1_contribution_caps_witness :
    ((Calculator.calculateCppEiForWeek 2000 "early-year").cpp ≤ 4034.10 / 52
      ∧ (Calculator.calculateCppEiForWeek 2000 "early-year").cpp2 ≤ 396.00 / 52
      ∧ (Calculator.calculateCppEiForWeek 2000 "early-year").ei ≤ 1077.48 / 52)
    ∧ ((Calculator.calculateCppEiForWeek 2000 "early-year").cpp = 4034.10 / 52
      ∧ (Calculator.calculateCppEiForWeek 2000 "early-year").cpp2 = 396.00 / 52
      ∧ (Calculator.calculateCppEiForWeek 2000 "early-year").ei = 1077.48 / 52) :=
  ⟨(claim1_contribution_caps 2000 "early-year" (Or.inl rfl)).1,
   (claim1_contribution_caps 2000 "early-year" (Or.inl rfl)).2 (by norm_num)⟩

/-- C2: the breakdown record satisfies the net-pay identity
`netPayTotal = taxableWeekly - (cpp+cpp2+ei+federalTax+albertaTax+unionDues)
+ nonTaxableWeekly` exactly, and `totalDeductions` is the sum of the six
deduction fields, for every input of either engine variant. -/
theorem claim2_net_pay_identity (t n : ℚ) (o : DeductionOptions)
    (mo : Option String) :
    ((Calculator.calculateDeductionsForWeek t n o).netPayTotal
      = t - ((Calculator.calculateDeductionsForWeek t n o).cpp
        + (Calculator.calculateDeductionsForWeek t n o).cpp2
        + (Calculator.calculateDeductionsForWeek t n o).ei
        + (Calculator.calculateDeductionsForWeek t n o).federalTax
        + (Calculator.calculateDeductionsForWeek t n o).albertaTax
        + (Calculator.calculateDeductionsForWeek t n o).unionDues) + n
    ∧ (Calculator.calculateDeductionsForWeek t n o).totalDeductions
      = (Calculator.calculateDeductionsForWeek t n o).cpp
        + (Calculator.calculateDeductionsForWeek t n o).cpp2
        + (Calculator.calculateDeductionsForWeek t n o).ei
        + (Calculator.calculateDeductionsForWeek t n o).federalTax
        + (Calculator.calculateDeductionsForWeek t n o).albertaTax
        + (Calculator.calculateDeductionsForWeek t n o).unionDues)
    ∧ ((Legacy.calculateDeductionsForWeek t n mo).netPayTotal
      = t - ((Legacy.calculateDeductionsForWeek t n mo).cpp
        + (Legacy.calculateDeductionsForWeek t n mo).cpp2
        + (Legacy.calculateDeductionsForWeek t n mo).ei
        + (Legacy.calculateDeductionsForWeek t n mo).federalTax
        + (Legacy.calculateDeductionsForWeek t n mo).albertaTax
        + (Legacy.calculateDeductionsForWeek t n mo).unionDues) + n
    ∧ (Legacy.calculateDeductionsForWeek t n mo).totalDeductions
      = (Legacy.calculateDeductionsForWeek t n mo).cpp
        + (Legacy.calculateDeductionsForWeek t n mo).cpp2
        + (Legacy.calculateDeductionsForWeek t n mo).ei
        + (Legacy.calculateDeductionsForWeek t n mo).federalTax
        + (Legacy.calculateDeductionsForWeek t n mo).albertaTax
        + (Legacy.calculateDeductionsForWeek t n mo).unionDues) := by
  refine ⟨⟨?_, ?_⟩, ?_, ?_⟩
  · simp only [Calculator.calculateDeductionsForWeek]
  · simp only [Calculator.calculateDeductionsForWeek]
  · simp only [Legacy.calculateDeductionsForWeek]
    by_cases hn : n = 0
    · subst hn; simp
    · rw [if_neg hn]
  · simp only [Legacy.calculateDeductionsForWeek]

/-- C5: for each authority the weekly tax equals
`max(0, progressiveTax(taxableWeekly*52, schedule) - (BPA*creditRate
+ (tier1Weekly*52 + insuranceWeekly*52)*creditRate)) / 52` with that
basic personal amount and credit rate of that same authority. The formula has
no tier-2 term, so the tax result is independent of `cpp2` (which is not
even an input of `calculateIncomeTaxForWeek`). -/
theorem claim5_tax_formula (t c e : ℚ) (m : String)
    (_ht : 0 ≤ t) (_hc : 0 ≤ c) (_he : 0 ≤ e) :
    (Calculator.calculateIncomeTaxForWeek t c e m).federalWeekly
        = max 0 (Calculator.applyProgressiveTax (t * 52)
            Calculator.FED_BRACKETS_2025
          - (Calculator.FED_BPA * Calculator.FED_CREDIT_RATE
            + (c * 52 + e * 52) * Calculator.FED_CREDIT_RATE)) / 52
    ∧ (Calculator.calculateIncomeTaxForWeek t c e m).abWeekly
        = max 0 (Calculator.applyProgressiveTax (t * 52)
            Calculator.AB_BRACKETS_2025
          - (Calculator.AB_BPA * Calculator.AB_CREDIT_RATE
            + (c * 52 + e * 52) * Calculator.AB_CREDIT_RATE)) / 52 := by
  constructor <;>
    simp only [Calculator.calculateIncomeTaxForWeek,
      Calculator.calculateAnnualFederalTaxGross,
      Calculator.calculateAnnualAlbertaTaxGross]

/-- Witness for C5 at `taxableWeekly = 100`, `tier1 = 1`, `insurance = 2`
in early-year mode. -/
theorem claim5_tax_formula_witness :
    (Calculator.calculateIncomeTaxForWeek 100 1 2 "early-year").federalWeekly
        = max 0 (Calculator.applyProgressiveTax (100 * 52)
            Calculator.FED_BRACKETS_2025
          - (Calculator.FED_BPA * Calculator.FED_CREDIT_RATE
            + ((1 : ℚ) * 52 + 2 * 52) * Calculator.FED_CREDIT_RATE)) / 52
    ∧ (Calculator.calculateIncomeTaxForWeek 100 1 2 "early-year").abWeekly
        = max 0 (Calculator.applyProgressiveTax (100 * 52)
            Calculator.AB_BRACKETS_2025
          - (Calculator.AB_BPA * Calculator.AB_CREDIT_RATE
            + ((1 : ℚ) * 52 + 2 * 52) * Calculator.AB_CREDIT_RATE)) / 52 :=
  claim5_tax_formula 100 1 2 "early-year" (by norm_num) (by norm_num)
    (by norm_num)

/-- Spec-side tier-2 formula, written from the words of the claim: when
`taxableWeekly*52` exceeds the tier-1 ceiling 71300, the excess clamped
to the tier-2 band `[0, 81200 - 71300]` is taxed at rate `0.04`, capped
at `396.00`, then divided by 52; otherwise it is zero. This definition
is the comparison point of the refinement claim C6. -/
def cpp2SpecFormula (taxableWeekly : ℚ) : ℚ :=
  if taxableWeekly * 52 > 71300 then
    min (Calculator.clamp (taxableWeekly * 52 - 71300) 0 (81200 - 71300)
      * 0.04) 396.00 / 52
  else 0

/-- C6: the tier-2 output of `calculateCppEiForWeek` is the same in both
modes and equals the annualized-projection formula of the spec. -/
theorem claim6_cpp2_mode_independent (t : ℚ) :
    (Calculator.calculateCppEiForWeek t "early-year").cpp2 = cpp2SpecFormula t
    ∧ (Calculator.calculateCppEiForWeek t "annualized").cpp2
      = cpp2SpecFormula t := by
  have key : (if t * 52 > Calculator.CPP_YMPE then
      min (Calculator.clamp (t * 52 - Calculator.CPP_YMPE) 0
          (Calculator.CPP2_YAMPE - Calculator.CPP_YMPE)
        * Calculator.CPP2_RATE) Calculator.CPP2_MAX_CONTRIB / 52
      else 0) = cpp2SpecFormula t := by
    unfold cpp2SpecFormula
    norm_num [Calculator.CPP_YMPE, Calculator.CPP2_YAMPE,
      Calculator.CPP2_RATE, Calculator.CPP2_MAX_CONTRIB]
  constructor
  · rw [cpp2_early_eq]; exact key
  · rw [cpp2_ann_eq t "annualized" (by decide)]; exact key

/-- C7: with the mode omitted or set to anything other than
`"annualized"`, both engine variants return the record of the explicit
`"early-year"` mode. -/
theorem claim7_mode_default (t n : ℚ) (r : Option ℚ) (m : Option String)
    (hm : m ≠ some "annualized") :
    Calculator.calculateDeductionsForWeek t n ⟨r, m⟩
      = Calculator.calculateDeductionsForWeek t n ⟨r, some "early-year"⟩
    ∧ Legacy.calculateDeductionsForWeek t n m
      = Legacy.calculateDeductionsForWeek t n (some "early-year") := by
  have hearly : (some "early-year" : Option String) ≠ some "annualized" := by
    simp
  constructor
  · simp only [Calculator.calculateDeductionsForWeek]
    rw [if_neg hm, if_neg hearly]
  · simp only [Legacy.calculateDeductionsForWeek]
    rw [if_neg hm, if_neg hearly]

/-- Witness for C7 with the mode omitted (`none`). -/
theorem claim7_mode_default_witness :
    Calculator.calculateDeductionsForWeek 1 2 ⟨none, none⟩
      = Calculator.calculateDeductionsForWeek 1 2 ⟨none, some "early-year"⟩
    ∧ Legacy.calculateDeductionsForWeek 1 2 none
      = Legacy.calculateDeductionsForWeek 1 2 (some "early-year") :=
  claim7_mode_default 1 2 none none (by simp)

/-- C9: changing only `nonTaxableWeekly` leaves every output field of
`calculateDeductionsForWeek` unchanged except `netPayTotal`, which
shifts by exactly the difference of the two values. -/
theorem claim9_non_taxable_frame (t : ℚ) (o : DeductionOptions)
    (n1 n2 : ℚ) :
    (Calculator.calculateDeductionsForWeek t n1 o).cpp
        = (Calculator.calculateDeductionsForWeek t n2 o).cpp
    ∧ (Calculator.calculateDeductionsForWeek t n1 o).cpp2
        = (Calculator.calculateDeductionsForWeek t n2 o).cpp2
    ∧ (Calculator.calculateDeductionsForWeek t n1 o).ei
        = (Calculator.calculateDeductionsForWeek t n2 o).ei
    ∧ (Calculator.calculateDeductionsForWeek t n1 o).federalTax
        = (Calculator.calculateDeductionsForWeek t n2 o).federalTax
    ∧ (Calculator.calculateDeductionsForWeek t n1 o).albertaTax
        = (Calculator.calculateDeductionsForWeek t n2 o).albertaTax
    ∧ (Calculator.calculateDeductionsForWeek t n1 o).unionDues
        = (Calculator.calculateDeductionsForWeek t n2 o).unionDues
    ∧ (Calculator.calculateDeductionsForWeek t n1 o).totalDeductions
        = (Calculator.calculateDeductionsForWeek t n2 o).totalDeductions
    ∧ (Calculator.calculateDeductionsForWeek t n1 o).netTaxableOnly
        = (Calculator.calculateDeductionsForWeek t n2 o).netTaxableOnly
    ∧ (Calculator.calculateDeductionsForWeek t n1 o).netPayTotal
        - (Calculator.calculateDeductionsForWeek t n2 o).netPayTotal
        = n1 - n2 := by
  refine ⟨rfl, rfl, rfl, rfl, rfl, rfl, rfl, rfl, ?_⟩
  simp only [Calculator.calculateDeductionsForWeek]
  ring

/-- C10: an explicit `unionDuesRate` of `0` is honored (the `??` default
applies only to a missing rate): the dues are `taxableWeekly * r` for an
explicit rate `r` and `taxableWeekly * 0.0375` only when the option is
absent. -/
theorem claim10_dues_rate_zero (t n : ℚ) (m : Option String) :
    (Calculator.calculateDeductionsForWeek t n ⟨some 0, m⟩).unionDues = 0
    ∧ (∀ r : ℚ,
        (Calculator.calculateDeductionsForWeek t n ⟨some r, m⟩).unionDues
          = t * r)
    ∧ (Calculator.calculateDeductionsForWeek t n ⟨none, m⟩).unionDues
        = t * Calculator.DEFAULT_UNION_DUES_RATE := by
  refine ⟨?_, fun r => ?_, ?_⟩ <;>
    simp [Calculator.calculateDeductionsForWeek, Option.getD]

/-- C3: weekly federal and provincial tax are never negative for
non-negative inputs, and at `taxableWeekly = 100` (either mode) the
credits exceed the gross tax, so both taxes are exactly zero. -/
theorem claim3_tax_nonneg (t c e : ℚ) (m : String)
    (_ht : 0 ≤ t) (_hc : 0 ≤ c) (_he : 0 ≤ e) :
    0 ≤ (Calculator.calculateIncomeTaxForWeek t c e m).federalWeekly
    ∧ 0 ≤ (Calculator.calculateIncomeTaxForWeek t c e m).abWeekly
    ∧ (∀ mo : Option String,
        (Calculator.calculateDeductionsForWeek 100 0 ⟨none, mo⟩).federalTax = 0
        ∧ (Calculator.calculateDeductionsForWeek 100 0 ⟨none, mo⟩).albertaTax
          = 0) := by
  refine ⟨?_, ?_, ?_⟩
  · simp only [Calculator.calculateIncomeTaxForWeek]
    exact div_nonneg (le_max_left 0 _) (by norm_num)
  · simp only [Calculator.calculateIncomeTaxForWeek]
    exact div_nonneg (le_max_left 0 _) (by norm_num)
  · intro mo
    by_cases hmo : mo = some "annualized"
    · subst hmo
      constructor <;>
        norm_num [Calculator.calculateDeductionsForWeek,
          Calculator.calculateCppEiForWeek, Calculator.calculateIncomeTaxForWeek,
          Calculator.calculateAnnualFederalTaxGross,
          Calculator.calculateAnnualAlbertaTaxGross,
          Calculator.applyProgressiveTax, Calculator.applyProgressiveTaxAux,
          Calculator.FED_BRACKETS_2025, Calculator.AB_BRACKETS_2025,
          Calculator.clamp, Calculator.CPP_RATE,
          Calculator.CPP_BASIC_EXEMPTION, Calculator.CPP_MAX_CONTRIB,
          Calculator.CPP_YMPE, Calculator.CPP2_RATE, Calculator.CPP2_YAMPE,
          Calculator.CPP2_MAX_CONTRIB, Calculator.EI_RATE,
          Calculator.EI_MAX_INSURABLE, Calculator.EI_MAX_CONTRIB,
          Calculator.FED_BPA, Calculator.FED_CREDIT_RATE, Calculator.AB_BPA,
          Calculator.AB_CREDIT_RATE, Calculator.DEFAULT_UNION_DUES_RATE,
          min_def, max_def]
    · have hfix : (if mo = some "annualized" then "annualized"
          else "early-year") = "early-year" := if_neg hmo
      constructor <;>
        (simp only [Calculator.calculateDeductionsForWeek, hfix]
         norm_num [Calculator.calculateCppEiForWeek,
           Calculator.calculateIncomeTaxForWeek,
           Calculator.calculateAnnualFederalTaxGross,
           Calculator.calculateAnnualAlbertaTaxGross,
           Calculator.applyProgressiveTax, Calculator.applyProgressiveTaxAux,
           Calculator.FED_BRACKETS_2025, Calculator.AB_BRACKETS_2025,
           Calculator.clamp, Calculator.CPP_RATE,
           Calculator.CPP_BASIC_EXEMPTION, Calculator.CPP_MAX_CONTRIB,
           Calculator.CPP_YMPE, Calculator.CPP2_RATE, Calculator.CPP2_YAMPE,
           Calculator.CPP2_MAX_CONTRIB, Calculator.EI_RATE,
           Calculator.EI_MAX_INSURABLE, Calculator.EI_MAX_CONTRIB,
           Calculator.FED_BPA, Calculator.FED_CREDIT_RATE, Calculator.AB_BPA,
           Calculator.AB_CREDIT_RATE, Calculator.DEFAULT_UNION_DUES_RATE,
           min_def, max_def])

/-- Witness for C3 at `t = 100`, zero credits, early-year mode. -/
theorem claim3_tax_nonneg_witness :
    0 ≤ (Calculator.calculateIncomeTaxForWeek 100 0 0 "early-year").federalWeekly
    ∧ 0 ≤ (Calculator.calculateIncomeTaxForWeek 100 0 0 "early-year").abWeekly
    ∧ (∀ mo : Option String,
        (Calculator.calculateDeductionsForWeek 100 0 ⟨none, mo⟩).federalTax = 0
        ∧ (Calculator.calculateDeductionsForWeek 100 0 ⟨none, mo⟩).albertaTax
          = 0) :=
  claim3_tax_nonneg 100 0 0 "early-year" (by norm_num) le_rfl le_rfl

/-- C4: for a fixed mode and fixed `nonTaxableWeekly`, the
`totalDeductions` output of `calculateDeductionsForWeek` is monotone
non-decreasing in `taxableWeekly` on nonnegative inputs. -/
theorem claim4_total_deductions_monotone (t1 t2 n : ℚ) (m : Option String)
    (h0 : 0 ≤ t1) (h12 : t1 ≤ t2) :
    (Calculator.calculateDeductionsForWeek t1 n ⟨none, m⟩).totalDeductions
      ≤ (Calculator.calculateDeductionsForWeek t2 n ⟨none, m⟩).totalDeductions := by
  simp only [Calculator.calculateDeductionsForWeek, Option.getD]
  set M := (if m = some "annualized" then "annualized" else "early-year")
    with hM
  have hcpp := cpp_mono M h12
  have hcpp2 := cpp2_mono M h12
  have hei := ei_mono M h12
  have hcppl := cpp_lip M h12
  have heil := ei_lip M h12
  have hfed := fedWeekly_mono M h0 h12 hcppl heil
  have hab := abWeekly_mono M h0 h12 hcppl heil
  have hdues : t1 * Calculator.DEFAULT_UNION_DUES_RATE
      ≤ t2 * Calculator.DEFAULT_UNION_DUES_RATE :=
    mul_le_mul_of_nonneg_right h12
      (by norm_num [Calculator.DEFAULT_UNION_DUES_RATE])
  linarith

/-- Witness for C4 at the concrete pair `t1 = 0 ≤ t2 = 1`. -/
theorem claim4_total_deductions_monotone_witness :
    (Calculator.calculateDeductionsForWeek 0 0 ⟨none, none⟩).totalDeductions
      ≤ (Calculator.calculateDeductionsForWeek 1 0 ⟨none, none⟩).totalDeductions :=
  claim4_total_deductions_monotone 0 1 0 none le_rfl (by norm_num)

/-! Agreement of the two engine files (claim C8). -/

lemma applyAux_variants (bs : List TaxBracket) :
    ∀ rem ll tax, Legacy.applyProgressiveTaxAux bs rem ll tax
      = Calculator.applyProgressiveTaxAux bs rem ll tax := by
  induction bs with
  | nil => intro rem ll tax; rfl
  | cons b bs ih =>
    intro rem ll tax
    rcases b with ⟨hl, rate⟩
    rcases hl with _ | l <;>
      simp only [Legacy.applyProgressiveTaxAux,
        Calculator.applyProgressiveTaxAux] <;>
      split_ifs <;> first | rfl | apply ih

lemma incomeTax_variants (t c e : ℚ) (m : String) :
    Calculator.calculateIncomeTaxForWeek t c e m
      = Legacy.calculateIncomeTaxForWeek t c e := by
  simp only [Calculator.calculateIncomeTaxForWeek,
    Legacy.calculateIncomeTaxForWeek,
    Calculator.calculateAnnualFederalTaxGross,
    Legacy.calculateAnnualFederalTaxGross,
    Calculator.calculateAnnualAlbertaTaxGross,
    Legacy.calculateAnnualAlbertaTaxGross,
    Calculator.applyProgressiveTax, Legacy.applyProgressiveTax,
    applyAux_variants,
    Calculator.FED_BRACKETS_2025, Legacy.FED_BRACKETS_2025,
    Calculator.AB_BRACKETS_2025, Legacy.AB_BRACKETS_2025,
    Calculator.FED_BPA, Legacy.FED_BPA,
    Calculator.FED_CREDIT_RATE, Legacy.FED_CREDIT_RATE,
    Calculator.AB_BPA, Legacy.AB_BPA,
    Calculator.AB_CREDIT_RATE, Legacy.AB_CREDIT_RATE]

lemma cppEi_early_agree (t : ℚ) :
    Calculator.calculateCppEiForWeek t "early-year"
      = Legacy.calculateCppEiForWeek t "early-year" := by
  simp [Calculator.calculateCppEiForWeek, Legacy.calculateCppEiForWeek,
    ite_cap_eq_min, Calculator.clamp, Legacy.clamp,
    Calculator.CPP_RATE, Legacy.CPP_RATE,
    Calculator.CPP_YMPE, Legacy.CPP_YMPE,
    Calculator.CPP_BASIC_EXEMPTION, Legacy.CPP_BASIC_EXEMPTION,
    Calculator.CPP_MAX_CONTRIB, Legacy.CPP_MAX_CONTRIB,
    Calculator.CPP2_RATE, Legacy.CPP2_RATE,
    Calculator.CPP2_YAMPE, Legacy.CPP2_YAMPE,
    Calculator.CPP2_MAX_CONTRIB, Legacy.CPP2_MAX_CONTRIB,
    Calculator.EI_RATE, Legacy.EI_RATE,
    Calculator.EI_MAX_INSURABLE, Legacy.EI_MAX_INSURABLE,
    Calculator.EI_MAX_CONTRIB, Legacy.EI_MAX_CONTRIB]
  norm_num

lemma cppEi_ann_agree (t : ℚ) :
    Calculator.calculateCppEiForWeek t "annualized"
      = Legacy.calculateCppEiForWeek t "annualized" := by
  simp [Calculator.calculateCppEiForWeek, Legacy.calculateCppEiForWeek,
    Calculator.clamp, Legacy.clamp,
    Calculator.CPP_RATE, Legacy.CPP_RATE,
    Calculator.CPP_YMPE, Legacy.CPP_YMPE,
    Calculator.CPP_BASIC_EXEMPTION, Legacy.CPP_BASIC_EXEMPTION,
    Calculator.CPP_MAX_CONTRIB, Legacy.CPP_MAX_CONTRIB,
    Calculator.CPP2_RATE, Legacy.CPP2_RATE,
    Calculator.CPP2_YAMPE, Legacy.CPP2_YAMPE,
    Calculator.CPP2_MAX_CONTRIB, Legacy.CPP2_MAX_CONTRIB,
    Calculator.EI_RATE, Legacy.EI_RATE,
    Calculator.EI_MAX_INSURABLE, Legacy.EI_MAX_INSURABLE,
    Calculator.EI_MAX_CONTRIB, Legacy.EI_MAX_CONTRIB]
  norm_num

/-- C8: the two engine files compute the same function: the options
variant of `src/calculator.js` with the default dues rate agrees
field-by-field with the bare-mode variant of `src/unnamed/part_000` for
every weekly input and every (possibly absent) mode value. -/
theorem claim8_variants_agree (t n : ℚ) (m : Option String) :
    Calculator.calculateDeductionsForWeek t n ⟨none, m⟩
      = Legacy.calculateDeductionsForWeek t n m := by
  have hcpp : Calculator.calculateCppEiForWeek t
      (if m = some "annualized" then "annualized" else "early-year")
      = Legacy.calculateCppEiForWeek t
        (if m = some "annualized" then "annualized" else "early-year") := by
    by_cases hm : m = some "annualized"
    · rw [if_pos hm]
      exact cppEi_ann_agree t
    · rw [if_neg hm]
      exact cppEi_early_agree t
  simp only [Calculator.calculateDeductionsForWeek,
    Legacy.calculateDeductionsForWeek, Option.getD]
  rw [hcpp, incomeTax_variants]
  by_cases hn : n = 0 <;>
    simp [hn, Calculator.DEFAULT_UNION_DUES_RATE, Legacy.UNION_DUES_RATE]
